import Mathlib

/-!
Verification of the `pyopenjtalk` binding layer (`pyopenjtalk/__init__.py`).

The module is a shim over two native engine objects (the OpenJTalk analyzer
and the HTSEngine synthesizer) plus an optional third-party accent predictor
(marine).  We embed the module as explicit state passing: the module-level
globals (`OPEN_JTALK_DICT_DIR`, `_global_jtalk`, `_global_htsengine`,
`_global_marine`) together with the relevant filesystem facts form a state
record `PState`; each public function maps a state to a result
(`Except PyErr _`), a new state, and a list of observable events (download
attempts and native-handle constructions).  The native layer, the network and
the optional dependency are opaque external collaborators, so their behavior
is a parameter record `Native` of oracle functions.
-/

/-- Observable events of one call: a dictionary download attempt
(`urlretrieve` in `_extract_dic`), construction of a native `OpenJTalk`
analyzer handle, construction of a native `HTSEngine` synthesizer handle,
construction of a marine `Predictor`. -/
inductive Event where
  | download
  | newJTalk
  | newHTS
  | newMarine
deriving DecidableEq, Repr

/-- Python exceptions visible at this layer. -/
inductive PyErr where
  | importError (msg : String)
  | downloadError
  | runtimeError (msg : String)
deriving DecidableEq, Repr

/-- Python values passed as the `labels` argument of `synthesize`: label
strings, lists and tuples.  `synthesize` only inspects whether the argument
is a tuple of length 2; everything else is forwarded opaquely. -/
inductive PyVal where
  | str (s : String)
  | list (xs : List PyVal)
  | tuple (xs : List PyVal)

/-- The native analyzer handle: `OpenJTalk(dn_mecab=...)` is constructed from
a dictionary directory path. -/
structure OpenJTalk where
  dn_mecab : String
deriving DecidableEq, Repr

/-- The native synthesizer handle: `HTSEngine(voice)`; `speed` and `halfTone`
are its mutable per-call configuration fields (set by `set_speed` and
`add_half_tone`). -/
structure HTSEngine where
  voice : String
  speed : Rat
  halfTone : Rat
deriving DecidableEq, Repr

/-- The default dictionary directory inside the package resources
(`pkg_resources.resource_filename(__name__, "open_jtalk_dic_utf_8-1.11")`). -/
def defaultDictDir : String := "pyopenjtalk/open_jtalk_dic_utf_8-1.11"

/-- The bundled default voice model (`htsvoice/mei_normal.htsvoice`). -/
def DEFAULT_HTS_VOICE : String := "pyopenjtalk/htsvoice/mei_normal.htsvoice"

/-- The module-level `OPEN_JTALK_DICT_DIR` computed at import time:
the environment variable value if set, otherwise the package default. -/
def OPEN_JTALK_DICT_DIR (envVar : Option String) : String :=
  envVar.getD defaultDictDir

/-- The guidance message of the `ImportError` raised by `estimate_accent`
when importing the marine predictor fails. -/
def marineInstallMsg : String :=
  "Please install marine by `pip install pyopenjtalk[marine]`"

/-- Message of the native error when the analyzer is constructed on a
missing dictionary directory. -/
def mecabFailMsg : String := "failed to initialize mecab"

/-- The mutable state of one Python process: the resolved dictionary
directory (the global `OPEN_JTALK_DICT_DIR`, reassigned by `_extract_dic`),
the set of filesystem paths that exist, and the three global singleton
slots (`_global_jtalk`, `_global_htsengine`, `_global_marine`; for marine we
only record whether the slot is filled). -/
structure PState where
  dictDir : String
  fs : List String
  jtalk : Option OpenJTalk
  hts : Option HTSEngine
  marine : Bool
deriving DecidableEq, Repr

/-- Modelled from the spec: the native engines, the network and the optional
marine package are external collaborators not present in this repository
(the spec treats them as opaque), so each native call is an oracle function,
and the outcome of the download, of `from marine.predict import Predictor`,
of `Predictor()` and of the marine converter import are oracle outcomes. -/
structure Native where
  downloadOk : Bool
  g2pF : String → String → String
  runFrontendF : String → String → List String
  makeLabelF : String → List String → List String
  srF : String → Nat
  synthF : HTSEngine → PyVal → List Rat
  importPredictor : Except PyErr Unit
  constructPredictor : Except PyErr Unit
  importConverter : Except PyErr Unit
  convertF : List String → List String
  predictF : List String → List String
  mergeF : List String → List String → List String

/-- Modelled from the spec: the native `set_speed` method, absent from the
reviewed source, mutates the synthesizer handle by setting its speed field
(spec 4.5: mutates the cached synthesizer speed field before synthesis). -/
def set_speed (e : HTSEngine) (speed : Rat) : HTSEngine :=
  { e with speed := speed }

/-- Modelled from the spec: the native `add_half_tone` method, absent from
the reviewed source, mutates the synthesizer handle by setting its
pitch-offset (half-tone) field (spec 4.5 / 3: pitch-offset is set per call
before synthesis). -/
def add_half_tone (e : HTSEngine) (halfTone : Rat) : HTSEngine :=
  { e with halfTone := halfTone }

/-- Embedding of `_extract_dic`: a download attempt is made; on success the
archive is extracted into the package resource directory (so the default
dictionary directory now exists) and the global `OPEN_JTALK_DICT_DIR` is
reassigned to that default path; on network or archive failure the error
propagates and the state is unchanged. -/
def extract_dic (nv : Native) (s : PState) :
    Except PyErr Unit × PState × List Event :=
  if nv.downloadOk then
    (.ok (), { s with dictDir := defaultDictDir, fs := defaultDictDir :: s.fs },
      [.download])
  else
    (.error .downloadError, s, [.download])

/-- Embedding of `_lazy_init`: `if not exists(OPEN_JTALK_DICT_DIR): _extract_dic()`. -/
def lazy_init (nv : Native) (s : PState) :
    Except PyErr Unit × PState × List Event :=
  if s.dictDir ∈ s.fs then (.ok (), s, [])
  else extract_dic nv s

/-- Embedding of the initialization idiom shared by `g2p`, `run_frontend` and
`make_label`: `if _global_jtalk is None: _lazy_init();
_global_jtalk = OpenJTalk(dn_mecab=OPEN_JTALK_DICT_DIR)`.  Modelled from the
spec for the native part: constructing the analyzer handle on a dictionary
path that does not exist fails (spec 6: initialization will fail when the
engine handle is constructed). -/
def ensureJTalk (nv : Native) (s : PState) :
    Except PyErr OpenJTalk × PState × List Event :=
  match s.jtalk with
  | some h => (.ok h, s, [])
  | none =>
    match lazy_init nv s with
    | (.error e, s1, ev) => (.error e, s1, ev)
    | (.ok _, s1, ev) =>
      if s1.dictDir ∈ s1.fs then
        let h : OpenJTalk := { dn_mecab := s1.dictDir }
        (.ok h, { s1 with jtalk := some h }, ev ++ [.newJTalk])
      else
        (.error (.runtimeError mecabFailMsg), s1, ev)

/-- Embedding of the initialization idiom of `synthesize`:
`if _global_htsengine is None: _global_htsengine = HTSEngine(DEFAULT_HTS_VOICE)`.
A fresh engine carries the native default configuration (speed 1, no extra
half tone). -/
def ensureHTS (s : PState) : HTSEngine × PState × List Event :=
  match s.hts with
  | some e => (e, s, [])
  | none =>
    let e : HTSEngine := { voice := DEFAULT_HTS_VOICE, speed := 1, halfTone := 0 }
    (e, { s with hts := some e }, [.newHTS])

/-- Embedding of the argument unwrapping at the top of `synthesize`:
`if isinstance(labels, tuple) and len(labels) == 2: labels = labels[1]`. -/
def unwrapLabels : PyVal → PyVal
  | .tuple [_, b] => b
  | v => v

/-- Embedding of `g2p`: ensure the analyzer handle, then forward. -/
def g2p (nv : Native) (text : String) (s : PState) :
    Except PyErr String × PState × List Event :=
  match ensureJTalk nv s with
  | (.error e, s1, ev) => (.error e, s1, ev)
  | (.ok h, s1, ev) => (.ok (nv.g2pF h.dn_mecab text), s1, ev)

/-- Embedding of `run_frontend`: ensure the analyzer handle, then forward. -/
def run_frontend (nv : Native) (text : String) (s : PState) :
    Except PyErr (List String) × PState × List Event :=
  match ensureJTalk nv s with
  | (.error e, s1, ev) => (.error e, s1, ev)
  | (.ok h, s1, ev) => (.ok (nv.runFrontendF h.dn_mecab text), s1, ev)

/-- Embedding of `make_label`: ensure the analyzer handle, then forward. -/
def make_label (nv : Native) (njd_features : List String) (s : PState) :
    Except PyErr (List String) × PState × List Event :=
  match ensureJTalk nv s with
  | (.error e, s1, ev) => (.error e, s1, ev)
  | (.ok h, s1, ev) => (.ok (nv.makeLabelF h.dn_mecab njd_features), s1, ev)

/-- Embedding of `estimate_accent`: if the `_global_marine` slot is empty,
`from marine.predict import Predictor` runs inside a `try` whose
`except BaseException` handler raises the guidance `ImportError`;
`Predictor()` runs after (outside) the `try`.  Then
`from marine.utils.openjtalk_util import convert_njd_feature_to_marine_feature`
runs unguarded on every call, followed by conversion, prediction and
`merge_njd_marine_features`. -/
def estimate_accent (nv : Native) (njd_features : List String) (s : PState) :
    Except PyErr (List String) × PState × List Event :=
  let init : Except PyErr Unit × PState × List Event :=
    if s.marine then (.ok (), s, [])
    else
      match nv.importPredictor with
      | .error _ => (.error (.importError marineInstallMsg), s, [])
      | .ok _ =>
        match nv.constructPredictor with
        | .error e => (.error e, s, [])
        | .ok _ => (.ok (), { s with marine := true }, [.newMarine])
  match init with
  | (.error e, s1, ev) => (.error e, s1, ev)
  | (.ok _, s1, ev) =>
    match nv.importConverter with
    | .error e => (.error e, s1, ev)
    | .ok _ =>
      let marine_feature := nv.convertF njd_features
      let marine_results := nv.predictF marine_feature
      (.ok (nv.mergeF njd_features marine_results), s1, ev)

/-- Embedding of `extract_fullcontext`: `run_frontend`, optionally
`estimate_accent`, then `make_label`; an exception anywhere aborts the call. -/
def extract_fullcontext (nv : Native) (text : String) (run_marine : Bool)
    (s : PState) : Except PyErr (List String) × PState × List Event :=
  match run_frontend nv text s with
  | (.error e, s1, ev) => (.error e, s1, ev)
  | (.ok feats, s1, ev) =>
    match (if run_marine then estimate_accent nv feats s1 else (.ok feats, s1, [])) with
    | (.error e, s2, ev2) => (.error e, s2, ev ++ ev2)
    | (.ok feats2, s2, ev2) =>
      match make_label nv feats2 s2 with
      | (.error e, s3, ev3) => (.error e, s3, ev ++ ev2 ++ ev3)
      | (.ok labels, s3, ev3) => (.ok labels, s3, ev ++ ev2 ++ ev3)

/-- Embedding of `synthesize`: unwrap a 2-tuple argument, ensure the
synthesizer handle, read the sampling frequency, set speed, set the
additional half tone, then run native synthesis on the mutated handle. -/
def synthesize (nv : Native) (labels : PyVal) (speed halfTone : Rat)
    (s : PState) : Except PyErr (List Rat × Nat) × PState × List Event :=
  let labels2 := unwrapLabels labels
  let (e0, s1, ev) := ensureHTS s
  let sr := nv.srF e0.voice
  let e2 := add_half_tone (set_speed e0 speed) halfTone
  (.ok (nv.synthF e2 labels2, sr), { s1 with hts := some e2 }, ev)

/-- Embedding of `tts`:
`synthesize(extract_fullcontext(text, run_marine=run_marine), speed, half_tone)`. -/
def tts (nv : Native) (text : String) (speed halfTone : Rat)
    (run_marine : Bool) (s : PState) :
    Except PyErr (List Rat × Nat) × PState × List Event :=
  match extract_fullcontext nv text run_marine s with
  | (.error e, s1, ev) => (.error e, s1, ev)
  | (.ok labels, s1, ev) =>
    let (r, s2, ev2) := synthesize nv (.list (labels.map .str)) speed halfTone s1
    (r, s2, ev ++ ev2)

/-- The explicit three-step pipeline of the spec:
`synthesize(make_label(run_frontend(text)), speed, half_tone)`. -/
def ttsComposed (nv : Native) (text : String) (speed halfTone : Rat)
    (s : PState) : Except PyErr (List Rat × Nat) × PState × List Event :=
  match run_frontend nv text s with
  | (.error e, s1, ev) => (.error e, s1, ev)
  | (.ok feats, s1, ev) =>
    match make_label nv feats s1 with
    | (.error e, s2, ev2) => (.error e, s2, ev ++ ev2)
    | (.ok labels, s2, ev2) =>
      let (r, s3, ev3) := synthesize nv (.list (labels.map .str)) speed halfTone s2
      (r, s3, ev ++ ev2 ++ ev3)

/-- One call to a public entry point of the module. -/
inductive Op where
  | g2p (text : String)
  | run_frontend (text : String)
  | make_label (feats : List String)
  | estimate_accent (feats : List String)
  | extract_fullcontext (text : String) (run_marine : Bool)
  | synthesize (labels : PyVal) (speed halfTone : Rat)
  | tts (text : String) (speed halfTone : Rat) (run_marine : Bool)

/-- State and events of one public call (results discarded). -/
def step (nv : Native) (op : Op) (s : PState) : PState × List Event :=
  match op with
  | .g2p t => ((g2p nv t s).2.1, (g2p nv t s).2.2)
  | .run_frontend t => ((run_frontend nv t s).2.1, (run_frontend nv t s).2.2)
  | .make_label f => ((make_label nv f s).2.1, (make_label nv f s).2.2)
  | .estimate_accent f =>
      ((estimate_accent nv f s).2.1, (estimate_accent nv f s).2.2)
  | .extract_fullcontext t m =>
      ((extract_fullcontext nv t m s).2.1, (extract_fullcontext nv t m s).2.2)
  | .synthesize l sp ht =>
      ((synthesize nv l sp ht s).2.1, (synthesize nv l sp ht s).2.2)
  | .tts t sp ht m => ((tts nv t sp ht m s).2.1, (tts nv t sp ht m s).2.2)

/-- A sequential run of public calls, collecting all events in order. -/
def run (nv : Native) (ops : List Op) (s : PState) : PState × List Event :=
  match ops with
  | [] => (s, [])
  | op :: rest =>
    let (s1, ev1) := step nv op s
    let (s2, ev2) := run nv rest s1
    (s2, ev1 ++ ev2)

/-- The state of a fresh process: `OPEN_JTALK_DICT_DIR` resolved from the
optional environment override, a given filesystem, all singleton slots
empty. -/
def initState (envVar : Option String) (fs : List String) : PState :=
  { dictDir := OPEN_JTALK_DICT_DIR envVar, fs := fs,
    jtalk := none, hts := none, marine := false }

/-- Remaining analyzer constructions allowed: 0 once the slot is filled. -/
def mJ (s : PState) : Nat := if s.jtalk.isSome then 0 else 1

/-- Remaining synthesizer constructions allowed: 0 once the slot is filled. -/
def mH (s : PState) : Nat := if s.hts.isSome then 0 else 1

/-- The voice configuration of the synthesizer slot (the default voice when
the slot is empty, since a fresh engine is built on the default voice). -/
def htsVoice (s : PState) : String :=
  match s.hts with
  | some e => e.voice
  | none => DEFAULT_HTS_VOICE

/-- Frame bundle of one transition: downloads cannot happen (and the
dictionary state is untouched) once the dictionary directory exists; each
engine slot is filled at most once, counted by events; a filled analyzer
slot is reused verbatim; a filled synthesizer slot keeps its voice. -/
def StepOK (s s2 : PState) (ev : List Event) : Prop :=
  (s.dictDir ∈ s.fs → s2.dictDir = s.dictDir ∧ s2.fs = s.fs ∧
    ev.count .download = 0) ∧
  (ev.count .newJTalk + mJ s2 ≤ mJ s) ∧
  (∀ h, s.jtalk = some h → s2.jtalk = some h) ∧
  (ev.count .newHTS + mH s2 ≤ mH s) ∧
  htsVoice s2 = htsVoice s

/-- A sample oracle record used to evaluate the model on concrete inputs. -/
def sampleNative : Native :=
  { downloadOk := true
    g2pF := fun _ t => t
    runFrontendF := fun _ t => [t]
    makeLabelF := fun d fs => d :: fs
    srF := fun _ => 48000
    synthF := fun e _ => [e.speed, e.halfTone]
    importPredictor := .ok ()
    constructPredictor := .ok ()
    importConverter := .ok ()
    convertF := fun fs => fs
    predictF := fun fs => fs
    mergeF := fun a b => a ++ b }

/-- A state in which both engine handles are already cached and the
dictionary directory exists. -/
def readyState : PState :=
  { dictDir := defaultDictDir, fs := [defaultDictDir],
    jtalk := some { dn_mecab := defaultDictDir },
    hts := some { voice := DEFAULT_HTS_VOICE, speed := 1, halfTone := 0 },
    marine := false }

/-- Oracles for a process in which the marine package is absent: the
predictor import raises. -/
def marineAbsentNative : Native :=
  { sampleNative with importPredictor := .error (.importError "No module named marine") }

/-- Oracles for a process in which the predictor import succeeds but the
`Predictor()` constructor raises. -/
def predictorCtorFailNative : Native :=
  { sampleNative with constructPredictor := .error (.runtimeError "device unavailable") }

/-- Oracles for a process in which the predictor is fine but the marine
feature-schema converter import raises. -/
def converterFailNative : Native :=
  { sampleNative with importConverter := .error (.runtimeError "bad converter") }

/-! ### Frame lemmas for single transitions -/

theorem stepOK_refl (s : PState) : StepOK s s [] := by
  refine ⟨fun _ => ⟨rfl, rfl, rfl⟩, ?_, fun h hh => hh, ?_, rfl⟩ <;> simp

theorem StepOK.comp {s s1 s2 : PState} {ev1 ev2 : List Event}
    (h1 : StepOK s s1 ev1) (h2 : StepOK s1 s2 ev2) :
    StepOK s s2 (ev1 ++ ev2) := by
  obtain ⟨d1, j1, p1, t1, v1⟩ := h1
  obtain ⟨d2, j2, p2, t2, v2⟩ := h2
  refine ⟨?_, ?_, ?_, ?_, ?_⟩
  · intro hm
    obtain ⟨ea, eb, ec⟩ := d1 hm
    have hm1 : s1.dictDir ∈ s1.fs := by rw [ea, eb]; exact hm
    obtain ⟨fa, fb, fc⟩ := d2 hm1
    exact ⟨fa.trans ea, fb.trans eb, by simp [List.count_append, ec, fc]⟩
  · simp only [List.count_append]; omega
  · exact fun h hh => p2 h (p1 h hh)
  · simp only [List.count_append]; omega
  · exact v2.trans v1

theorem lazy_init_frame (nv : Native) (s : PState) :
    (lazy_init nv s).2.1.jtalk = s.jtalk ∧ (lazy_init nv s).2.1.hts = s.hts ∧
    (lazy_init nv s).2.1.marine = s.marine := by
  unfold lazy_init extract_dic
  by_cases hm : s.dictDir ∈ s.fs <;> by_cases hd : nv.downloadOk <;>
    simp [hm, hd]

theorem lazy_init_stepOK (nv : Native) (s : PState) :
    StepOK s (lazy_init nv s).2.1 (lazy_init nv s).2.2 := by
  unfold lazy_init extract_dic
  by_cases hm : s.dictDir ∈ s.fs
  · simpa [hm] using stepOK_refl s
  · by_cases hd : nv.downloadOk <;>
      · simp only [hm, hd, if_true, if_false, ite_false, ite_true]
        exact ⟨fun hmem => absurd hmem hm, by simp [mJ], fun h hh => hh,
          by simp [mH], by simp [htsVoice]⟩

theorem lazy_init_ok_exists (nv : Native) (s : PState) (r : Unit)
    (s1 : PState) (ev : List Event)
    (h : lazy_init nv s = (.ok r, s1, ev)) : s1.dictDir ∈ s1.fs := by
  unfold lazy_init extract_dic at h
  by_cases hm : s.dictDir ∈ s.fs
  · simp [hm] at h
    rw [← h.1]
    simpa using hm
  · by_cases hd : nv.downloadOk <;> simp [hm, hd] at h
    rw [← h.1]
    simp

theorem ensureJTalk_cached (nv : Native) (s : PState) (h : OpenJTalk)
    (hj : s.jtalk = some h) : ensureJTalk nv s = (.ok h, s, []) := by
  unfold ensureJTalk
  rw [hj]

theorem ensureJTalk_ok_jtalk (nv : Native) (s : PState) (h : OpenJTalk)
    (s1 : PState) (ev : List Event)
    (hok : ensureJTalk nv s = (.ok h, s1, ev)) : s1.jtalk = some h := by
  unfold ensureJTalk at hok
  rcases hj : s.jtalk with _ | h0
  · rw [hj] at hok
    rcases hli : lazy_init nv s with ⟨r, sa, eva⟩
    rw [hli] at hok
    cases r with
    | error e => simp at hok
    | ok u =>
      by_cases hm : sa.dictDir ∈ sa.fs
      · simp [hm] at hok
        obtain ⟨h1, h2, _⟩ := hok
        rw [← h2]
        simp [← h1]
      · simp [hm] at hok
  · rw [hj] at hok
    simp at hok
    obtain ⟨h1, h2, _⟩ := hok
    rw [← h2, hj, h1]

theorem ensureJTalk_stepOK (nv : Native) (s : PState) :
    StepOK s (ensureJTalk nv s).2.1 (ensureJTalk nv s).2.2 := by
  rcases hj : s.jtalk with _ | h
  · unfold ensureJTalk
    rw [hj]
    rcases hli : lazy_init nv s with ⟨r, s1, ev⟩
    have hst := lazy_init_stepOK nv s
    have hfr := lazy_init_frame nv s
    rw [hli] at hst hfr
    simp only at hst hfr
    cases r with
    | error e => simpa using hst
    | ok u =>
      by_cases hm : s1.dictDir ∈ s1.fs
      · simp only [hm, if_true]
        refine hst.comp ?_
        have hj1 : s1.jtalk = none := by rw [hfr.1, hj]
        refine ⟨fun _ => ⟨rfl, rfl, by simp⟩, ?_, ?_, ?_, ?_⟩
        · simp [mJ, hj1]
        · intro h2 hh
          rw [hj1] at hh
          cases hh
        · simp [mH]
        · simp [htsVoice]
      · simp only [hm, if_false]
        simpa using hst
  · rw [ensureJTalk_cached nv s h hj]
    exact stepOK_refl s

theorem g2p_state_events (nv : Native) (t : String) (s : PState) :
    (g2p nv t s).2 = (ensureJTalk nv s).2 := by
  unfold g2p
  rcases h : ensureJTalk nv s with ⟨r, s1, ev⟩
  cases r <;> rfl

theorem run_frontend_state_events (nv : Native) (t : String) (s : PState) :
    (run_frontend nv t s).2 = (ensureJTalk nv s).2 := by
  unfold run_frontend
  rcases h : ensureJTalk nv s with ⟨r, s1, ev⟩
  cases r <;> rfl

theorem make_label_state_events (nv : Native) (f : List String) (s : PState) :
    (make_label nv f s).2 = (ensureJTalk nv s).2 := by
  unfold make_label
  rcases h : ensureJTalk nv s with ⟨r, s1, ev⟩
  cases r <;> rfl

theorem g2p_stepOK (nv : Native) (t : String) (s : PState) :
    StepOK s (g2p nv t s).2.1 (g2p nv t s).2.2 := by
  rw [g2p_state_events]
  exact ensureJTalk_stepOK nv s

theorem run_frontend_stepOK (nv : Native) (t : String) (s : PState) :
    StepOK s (run_frontend nv t s).2.1 (run_frontend nv t s).2.2 := by
  rw [run_frontend_state_events]
  exact ensureJTalk_stepOK nv s

theorem make_label_stepOK (nv : Native) (f : List String) (s : PState) :
    StepOK s (make_label nv f s).2.1 (make_label nv f s).2.2 := by
  rw [make_label_state_events]
  exact ensureJTalk_stepOK nv s

theorem estimate_accent_stepOK (nv : Native) (f : List String) (s : PState) :
    StepOK s (estimate_accent nv f s).2.1 (estimate_accent nv f s).2.2 := by
  unfold estimate_accent
  by_cases hm : s.marine
  · rcases hc : nv.importConverter with e | u <;>
      simpa [hm, hc] using stepOK_refl s
  · rcases hp : nv.importPredictor with e | u
    · simpa [hm, hp] using stepOK_refl s
    · rcases hcp : nv.constructPredictor with e | u2
      · simpa [hm, hp, hcp] using stepOK_refl s
      · rcases hc : nv.importConverter with e | u3 <;>
          · simp only [hm, hp, hcp, hc, if_false, ite_false]
            exact ⟨fun _ => ⟨rfl, rfl, by simp⟩, by simp [mJ],
              fun h hh => hh, by simp [mH], by simp [htsVoice]⟩

theorem estimate_accent_dict_frame (nv : Native) (f : List String)
    (s : PState) : (estimate_accent nv f s).2.1.jtalk = s.jtalk ∧
    (estimate_accent nv f s).2.2.count .download = 0 := by
  unfold estimate_accent
  by_cases hm : s.marine
  · rcases hc : nv.importConverter with e | u <;> simp [hm, hc]
  · rcases hp : nv.importPredictor with e | u
    · simp [hm, hp]
    · rcases hcp : nv.constructPredictor with e | u2
      · simp [hm, hp, hcp]
      · rcases hc : nv.importConverter with e | u3 <;> simp [hm, hp, hcp, hc]

theorem synthesize_state (nv : Native) (l : PyVal) (sp ht : Rat)
    (s : PState) :
    (synthesize nv l sp ht s).2.1 =
      { s with hts := some { voice := htsVoice s, speed := sp, halfTone := ht } } ∧
    (synthesize nv l sp ht s).2.2 = (if s.hts.isSome then [] else [.newHTS]) := by
  unfold synthesize ensureHTS
  rcases hh : s.hts with _ | e <;>
    simp [hh, htsVoice, set_speed, add_half_tone]

theorem synthesize_stepOK (nv : Native) (l : PyVal) (sp ht : Rat)
    (s : PState) :
    StepOK s (synthesize nv l sp ht s).2.1 (synthesize nv l sp ht s).2.2 := by
  obtain ⟨hs, he⟩ := synthesize_state nv l sp ht s
  rw [hs, he]
  rcases hh : s.hts with _ | e <;>
    exact ⟨fun _ => ⟨rfl, rfl, by simp [hh]⟩, by simp [mJ],
      fun h2 hh2 => hh2, by simp [mH, hh], by simp [htsVoice, hh]⟩

theorem extract_fullcontext_stepOK (nv : Native) (t : String) (m : Bool)
    (s : PState) : StepOK s (extract_fullcontext nv t m s).2.1
      (extract_fullcontext nv t m s).2.2 := by
  unfold extract_fullcontext
  rcases h1 : run_frontend nv t s with ⟨r1, s1, ev1⟩
  have st1 := run_frontend_stepOK nv t s
  rw [h1] at st1
  simp only at st1
  cases r1 with
  | error e => simpa using st1
  | ok feats =>
    dsimp only
    rcases h2 : (if m then estimate_accent nv feats s1 else (.ok feats, s1, []))
      with ⟨r2, s2, ev2⟩
    have st2 : StepOK s1 s2 ev2 := by
      by_cases hm : m
      · have := estimate_accent_stepOK nv feats s1
        simp only [hm, if_true] at h2
        rw [h2] at this
        simpa using this
      · simp only [hm] at h2
        simp at h2
        obtain ⟨_, hs2, hev2⟩ := h2
        rw [← hs2, hev2]
        exact stepOK_refl s1
    cases r2 with
    | error e => simpa using st1.comp st2
    | ok feats2 =>
      dsimp only
      rcases h3 : make_label nv feats2 s2 with ⟨r3, s3, ev3⟩
      have st3 := make_label_stepOK nv feats2 s2
      rw [h3] at st3
      simp only at st3
      cases r3 <;> simpa using st1.comp (st2.comp st3)

theorem tts_stepOK (nv : Native) (t : String) (sp ht : Rat) (m : Bool)
    (s : PState) :
    StepOK s (tts nv t sp ht m s).2.1 (tts nv t sp ht m s).2.2 := by
  unfold tts
  rcases h1 : extract_fullcontext nv t m s with ⟨r1, s1, ev1⟩
  have st1 := extract_fullcontext_stepOK nv t m s
  rw [h1] at st1
  simp only at st1
  cases r1 with
  | error e => simpa using st1
  | ok labels =>
    have st2 := synthesize_stepOK nv (.list (labels.map .str)) sp ht s1
    simpa using st1.comp st2

theorem step_stepOK (nv : Native) (op : Op) (s : PState) :
    StepOK s (step nv op s).1 (step nv op s).2 := by
  cases op with
  | g2p t => exact g2p_stepOK nv t s
  | run_frontend t => exact run_frontend_stepOK nv t s
  | make_label f => exact make_label_stepOK nv f s
  | estimate_accent f => exact estimate_accent_stepOK nv f s
  | extract_fullcontext t m => exact extract_fullcontext_stepOK nv t m s
  | synthesize l sp ht => exact synthesize_stepOK nv l sp ht s
  | tts t sp ht m => exact tts_stepOK nv t sp ht m s

theorem run_stepOK (nv : Native) (ops : List Op) (s : PState) :
    StepOK s (run nv ops s).1 (run nv ops s).2 := by
  induction ops generalizing s with
  | nil => exact stepOK_refl s
  | cons op rest ih =>
    have h1 := step_stepOK nv op s
    have h2 := ih (step nv op s).1
    simpa [run] using h1.comp h2

/-! ### Per-call download and result characterizations -/

theorem ensureJTalk_missing_download (nv : Native) (s : PState)
    (hj : s.jtalk = none) (hm : s.dictDir ∉ s.fs) :
    (ensureJTalk nv s).2.2.count .download = 1 := by
  unfold ensureJTalk lazy_init extract_dic
  rw [hj]
  by_cases hd : nv.downloadOk <;> simp [hm, hd]

theorem ensureJTalk_missing_success (nv : Native) (s : PState)
    (hj : s.jtalk = none) (hm : s.dictDir ∉ s.fs) (hd : nv.downloadOk = true) :
    (ensureJTalk nv s).2.1.dictDir = defaultDictDir := by
  unfold ensureJTalk lazy_init extract_dic
  rw [hj]
  simp [hm, hd]

theorem run_frontend_missing_download (nv : Native) (t : String) (s : PState)
    (hj : s.jtalk = none) (hm : s.dictDir ∉ s.fs) :
    (run_frontend nv t s).2.2.count .download = 1 := by
  rw [run_frontend_state_events]
  exact ensureJTalk_missing_download nv s hj hm

theorem g2p_missing_download (nv : Native) (t : String) (s : PState)
    (hj : s.jtalk = none) (hm : s.dictDir ∉ s.fs) :
    (g2p nv t s).2.2.count .download = 1 := by
  rw [g2p_state_events]
  exact ensureJTalk_missing_download nv s hj hm

theorem make_label_missing_download (nv : Native) (f : List String)
    (s : PState) (hj : s.jtalk = none) (hm : s.dictDir ∉ s.fs) :
    (make_label nv f s).2.2.count .download = 1 := by
  rw [make_label_state_events]
  exact ensureJTalk_missing_download nv s hj hm

theorem run_frontend_ok_parts (nv : Native) (t : String) (s : PState)
    (v : List String) (s1 : PState) (ev : List Event)
    (h : run_frontend nv t s = (.ok v, s1, ev)) :
    ∃ hh, ensureJTalk nv s = (.ok hh, s1, ev) := by
  unfold run_frontend at h
  rcases he : ensureJTalk nv s with ⟨r, sa, eva⟩
  rw [he] at h
  cases r with
  | error e => simp at h
  | ok hh =>
    simp at h
    exact ⟨hh, by rw [h.2.1, h.2.2]⟩

theorem run_frontend_ok_jtalk (nv : Native) (t : String) (s : PState)
    (v : List String) (s1 : PState) (ev : List Event)
    (h : run_frontend nv t s = (.ok v, s1, ev)) :
    ∃ hh, s1.jtalk = some hh := by
  obtain ⟨hh, he⟩ := run_frontend_ok_parts nv t s v s1 ev h
  exact ⟨hh, ensureJTalk_ok_jtalk nv s hh s1 ev he⟩

theorem make_label_cached (nv : Native) (f : List String) (s : PState)
    (h : OpenJTalk) (hj : s.jtalk = some h) :
    make_label nv f s = (.ok (nv.makeLabelF h.dn_mecab f), s, []) := by
  unfold make_label
  rw [ensureJTalk_cached nv s h hj]

theorem synthesize_download_count (nv : Native) (l : PyVal) (sp ht : Rat)
    (s : PState) : (synthesize nv l sp ht s).2.2.count .download = 0 := by
  rw [(synthesize_state nv l sp ht s).2]
  cases hh : s.hts <;> simp [hh]

theorem extract_fullcontext_missing_download (nv : Native) (t : String)
    (m : Bool) (s : PState) (hj : s.jtalk = none) (hm : s.dictDir ∉ s.fs) :
    (extract_fullcontext nv t m s).2.2.count .download = 1 := by
  unfold extract_fullcontext
  rcases h1 : run_frontend nv t s with ⟨r1, s1, ev1⟩
  have hc1 : ev1.count .download = 1 := by
    have h := run_frontend_missing_download nv t s hj hm
    rw [h1] at h
    exact h
  cases r1 with
  | error e => simpa using hc1
  | ok feats =>
    dsimp only
    obtain ⟨hj1, hjs1⟩ := run_frontend_ok_jtalk nv t s feats s1 ev1 h1
    rcases h2 : (if m then estimate_accent nv feats s1 else (.ok feats, s1, []))
      with ⟨r2, s2, ev2⟩
    have hc2 : ev2.count .download = 0 ∧ s2.jtalk = s1.jtalk := by
      by_cases hmm : m
      · have := estimate_accent_dict_frame nv feats s1
        simp only [hmm, if_true] at h2
        rw [h2] at this
        exact ⟨this.2, this.1⟩
      · simp only [hmm] at h2
        simp at h2
        exact ⟨by simp [h2.2.2], by rw [h2.2.1]⟩
    cases r2 with
    | error e => simp [List.count_append, hc1, hc2.1]
    | ok feats2 =>
      dsimp only
      rcases h3 : make_label nv feats2 s2 with ⟨r3, s3, ev3⟩
      have hev3 : ev3 = [] := by
        have hme := make_label_state_events nv feats2 s2
        rw [ensureJTalk_cached nv s2 hj1 (by rw [hc2.2, hjs1])] at hme
        rw [h3] at hme
        have := congrArg Prod.snd hme
        simpa using this
      cases r3 <;> simp [List.count_append, hc1, hc2.1, hev3]

theorem tts_missing_download (nv : Native) (t : String) (sp ht : Rat)
    (m : Bool) (s : PState) (hj : s.jtalk = none) (hm : s.dictDir ∉ s.fs) :
    (tts nv t sp ht m s).2.2.count .download = 1 := by
  unfold tts
  rcases h1 : extract_fullcontext nv t m s with ⟨r1, s1, ev1⟩
  have hc1 : ev1.count .download = 1 := by
    have h := extract_fullcontext_missing_download nv t m s hj hm
    rw [h1] at h
    exact h
  cases r1 with
  | error e => simpa using hc1
  | ok labels =>
    dsimp only
    rcases hs : synthesize nv (.list (labels.map .str)) sp ht s1
      with ⟨r2, s2, ev2⟩
    have hc2 : ev2.count .download = 0 := by
      have h := synthesize_download_count nv (.list (labels.map .str)) sp ht s1
      rw [hs] at h
      exact h
    simp [List.count_append, hc1, hc2]

theorem estimate_accent_download_count (nv : Native) (f : List String)
    (s : PState) : (estimate_accent nv f s).2.2.count .download = 0 := by
  exact (estimate_accent_dict_frame nv f s).2

theorem synthesize_result (nv : Native) (labels : PyVal) (sp ht : Rat)
    (s : PState) :
    (synthesize nv labels sp ht s).1 =
      .ok (nv.synthF { voice := htsVoice s, speed := sp, halfTone := ht }
        (unwrapLabels labels), nv.srF (htsVoice s)) := by
  unfold synthesize
  rcases hh : s.hts with _ | e <;>
    simp [ensureHTS, hh, htsVoice, set_speed, add_half_tone]

theorem unwrapLabels_tuple_ne_two (xs : List PyVal) (h : xs.length ≠ 2) :
    unwrapLabels (.tuple xs) = .tuple xs := by
  match xs with
  | [] => rfl
  | [a] => rfl
  | [a, b] => exact absurd rfl h
  | a :: b :: c :: t => rfl

/-! ### Claim theorems -/

/-- C2: for every label list L and every speed and half-tone value, calling
`synthesize` on the bare list L and calling it on a 2-tuple whose second
element is L produce identical output — the same waveform and sample rate
(indeed the same result, final state and events) — for any first tuple
element, any native behavior and any starting state. -/
theorem synthesize_tuple_unwrap_equiv (nv : Native) (v : PyVal)
    (L : List String) (sp ht : Rat) (s : PState) :
    synthesize nv (.tuple [v, .list (L.map .str)]) sp ht s =
      synthesize nv (.list (L.map .str)) sp ht s := rfl

/-- C3: `tts` with the accent model disabled returns the same result as the
explicit three-step composition
`synthesize(make_label(run_frontend(text)), speed, half_tone)`, including
the final state and the emitted events. -/
theorem tts_accent_off_eq_composition (nv : Native) (t : String)
    (sp ht : Rat) (s : PState) :
    tts nv t sp ht false s = ttsComposed nv t sp ht s := by
  unfold tts ttsComposed extract_fullcontext
  rcases h1 : run_frontend nv t s with ⟨r1, s1, ev1⟩
  cases r1 with
  | error e => rfl
  | ok feats =>
    dsimp only
    rw [if_neg Bool.false_ne_true]
    dsimp only
    rcases h3 : make_label nv feats s1 with ⟨r3, s3, ev3⟩
    cases r3 with
    | error e => simp
    | ok labels =>
      simp [List.append_assoc]

/-- C7: every call to `synthesize` stores in the cached synthesizer slot an
engine whose speed field and half-tone field equal exactly that call's
arguments, with the voice — the only other configuration — unchanged, and
the native synthesis method is invoked on precisely that mutated
configuration (so the fields are set before synthesis runs). -/
theorem synthesize_sets_speed_and_half_tone (nv : Native) (labels : PyVal)
    (sp ht : Rat) (s : PState) :
    (synthesize nv labels sp ht s).2.1.hts =
      some { voice := htsVoice s, speed := sp, halfTone := ht } ∧
    (synthesize nv labels sp ht s).1 =
      .ok (nv.synthF { voice := htsVoice s, speed := sp, halfTone := ht }
        (unwrapLabels labels), nv.srF (htsVoice s)) := by
  constructor
  · rw [(synthesize_state nv labels sp ht s).1]
  · exact synthesize_result nv labels sp ht s

/-- C9: `synthesize` unwraps its argument only when it is a tuple of length
exactly 2, passing the second element to the native synthesizer; a tuple of
any other length, a list (even one whose second element is a label list)
and a bare string reach the native synthesizer unchanged. -/
theorem synthesize_unwrap_shape (nv : Native) (sp ht : Rat) (s : PState) :
    (∀ a b : PyVal, (synthesize nv (.tuple [a, b]) sp ht s).1 =
      .ok (nv.synthF { voice := htsVoice s, speed := sp, halfTone := ht } b,
        nv.srF (htsVoice s))) ∧
    (∀ xs : List PyVal, xs.length ≠ 2 →
      (synthesize nv (.tuple xs) sp ht s).1 =
      .ok (nv.synthF { voice := htsVoice s, speed := sp, halfTone := ht }
        (.tuple xs), nv.srF (htsVoice s))) ∧
    (∀ ys : List PyVal, (synthesize nv (.list ys) sp ht s).1 =
      .ok (nv.synthF { voice := htsVoice s, speed := sp, halfTone := ht }
        (.list ys), nv.srF (htsVoice s))) ∧
    (∀ c : String, (synthesize nv (.str c) sp ht s).1 =
      .ok (nv.synthF { voice := htsVoice s, speed := sp, halfTone := ht }
        (.str c), nv.srF (htsVoice s))) := by
  refine ⟨fun a b => ?_, fun xs hx => ?_, fun ys => ?_, fun c => ?_⟩
  · rw [synthesize_result]; rfl
  · rw [synthesize_result, unwrapLabels_tuple_ne_two xs hx]
  · rw [synthesize_result]; rfl
  · rw [synthesize_result]; rfl

/-- Witness for C9: concrete shapes — a 2-tuple is unwrapped to its second
element, a 1-tuple and a list are forwarded unchanged. -/
theorem synthesize_unwrap_shape_witness :
    (synthesize sampleNative (.tuple [.str "a", .str "b"]) 5 7
      (initState none [])).1 = .ok ([5, 7], 48000) ∧
    (synthesize sampleNative (.tuple [.str "a"]) 5 7 (initState none [])).1 =
      .ok ([5, 7], 48000) ∧
    (synthesize sampleNative (.list [.str "a", .str "b"]) 5 7
      (initState none [])).1 = .ok ([5, 7], 48000) := by
  have h := synthesize_unwrap_shape sampleNative 5 7 (initState none [])
  refine ⟨?_, ?_, ?_⟩
  · rw [h.1 (.str "a") (.str "b")]; rfl
  · rw [h.2.1 [.str "a"] (by simp)]; rfl
  · rw [h.2.2.1 [.str "a", .str "b"]]; rfl

/-- C4: across any sequential run of public entry points, the analyzer and
the synthesizer handles are each constructed at most once; once the
corresponding global slot is non-empty, every later call constructs none
and reuses the cached instance (the analyzer slot is returned verbatim and
the synthesizer keeps its voice, only its per-call fields changing). -/
theorem engine_handles_constructed_at_most_once (nv : Native) (ops : List Op)
    (s : PState) :
    ((run nv ops s).2.count .newJTalk ≤ 1 ∧
      (run nv ops s).2.count .newHTS ≤ 1) ∧
    (∀ h, s.jtalk = some h →
      (run nv ops s).1.jtalk = some h ∧
      (run nv ops s).2.count .newJTalk = 0) ∧
    (s.hts.isSome = true →
      (run nv ops s).2.count .newHTS = 0 ∧
      htsVoice (run nv ops s).1 = htsVoice s) := by
  obtain ⟨_, hj, hp, hh, hv⟩ := run_stepOK nv ops s
  refine ⟨⟨?_, ?_⟩, ?_, ?_⟩
  · have : mJ s ≤ 1 := by unfold mJ; split <;> omega
    omega
  · have : mH s ≤ 1 := by unfold mH; split <;> omega
    omega
  · intro h hsome
    refine ⟨hp h hsome, ?_⟩
    have : mJ s = 0 := by simp [mJ, hsome]
    omega
  · intro hsome
    have : mH s = 0 := by simp [mH, hsome]
    exact ⟨by omega, hv⟩

/-- Witness for C4: from a state with both handles cached, a run making two
calls constructs no new analyzer and no new synthesizer and keeps the cached
analyzer handle. -/
theorem engine_handles_constructed_at_most_once_witness :
    (run sampleNative [.g2p "t", .synthesize (.list []) 1 0]
      readyState).1.jtalk = some { dn_mecab := defaultDictDir } ∧
    (run sampleNative [.g2p "t", .synthesize (.list []) 1 0]
      readyState).2.count .newJTalk = 0 ∧
    (run sampleNative [.g2p "t", .synthesize (.list []) 1 0]
      readyState).2.count .newHTS = 0 := by
  have h := engine_handles_constructed_at_most_once sampleNative
    [.g2p "t", .synthesize (.list []) 1 0] readyState
  exact ⟨(h.2.1 { dn_mecab := defaultDictDir } rfl).1,
    (h.2.1 { dn_mecab := defaultDictDir } rfl).2, (h.2.2 rfl).1⟩

/-- C1 counterexample: with the dictionary-directory environment override
set to a path that does not exist on disk, the first analyzer call DOES
make a download attempt (one download event), contradicting the claim that
no call into the provisioning step ever downloads the archive when the
override is set. -/
theorem override_set_missing_path_downloads :
    (step sampleNative (.g2p "text") (initState (some "custom") [])).2.count
      .download = 1 := by
  exact g2p_missing_download sampleNative "text" (initState (some "custom") [])
    rfl (by simp [initState])

/-- C1 (amended): if the dictionary-directory override is set and the
overridden path exists, no sequence of calls ever downloads; if the
overridden path does not exist, the first analyzer-requiring call makes a
download attempt, and when the download succeeds the dictionary path is
reset to the default package directory (so initialization proceeds on the
default dictionary instead of failing at engine-handle construction). -/
theorem dict_override_download_behavior (nv : Native) (o : String)
    (fs : List String) (ops : List Op) (t : String) :
    (o ∈ fs → (run nv ops (initState (some o) fs)).2.count .download = 0) ∧
    (o ∉ fs →
      (run_frontend nv t (initState (some o) fs)).2.2.count .download = 1 ∧
      (nv.downloadOk = true →
        (run_frontend nv t (initState (some o) fs)).2.1.dictDir =
          defaultDictDir)) := by
  refine ⟨?_, ?_⟩
  · intro hmem
    exact ((run_stepOK nv ops (initState (some o) fs)).1 hmem).2.2
  · intro hmem
    refine ⟨run_frontend_missing_download nv t (initState (some o) fs) rfl hmem, ?_⟩
    intro hd
    rw [run_frontend_state_events]
    exact ensureJTalk_missing_success nv (initState (some o) fs) rfl hmem hd

/-- Witness for C1 (amended): with the override set to an existing path a
call downloads nothing; with it set to a missing path the first call makes
exactly one download attempt and ends on the default dictionary path. -/
theorem dict_override_download_behavior_witness :
    (run sampleNative [.g2p "t"] (initState (some "a") ["a"])).2.count
      .download = 0 ∧
    (run_frontend sampleNative "t" (initState (some "b") [])).2.2.count
      .download = 1 ∧
    (run_frontend sampleNative "t" (initState (some "b") [])).2.1.dictDir =
      defaultDictDir := by
  have h1 := dict_override_download_behavior sampleNative "a" ["a"] [.g2p "t"] "t"
  have h2 := dict_override_download_behavior sampleNative "b" [] [] "t"
  exact ⟨h1.1 (by simp), (h2.2 (by simp)).1, (h2.2 (by simp)).2 rfl⟩

/-- C5 counterexample: at a fresh state whose dictionary directory does not
exist, a `synthesize` call — a public entry point — triggers zero
provisioning attempts, not exactly one as claimed. -/
theorem synthesize_no_provisioning_when_dict_missing :
    (initState none []).dictDir ∉ (initState none []).fs ∧
    (step sampleNative (.synthesize (.list []) 1 0) (initState none [])).2.count
      .download = 0 := by
  constructor
  · simp [initState]
  · rfl

/-- C5 (amended): while the analyzer slot is empty and the dictionary
directory does not exist, each analyzer-requiring entry point (`g2p`,
`run_frontend`, `make_label`, `extract_fullcontext`, `tts`) makes exactly
one provisioning attempt per call, while `synthesize` and `estimate_accent`
make none; and from any state whose dictionary directory exists — in
particular after a successful provisioning — no sequence of calls ever
makes another download attempt. -/
theorem provisioning_exactly_once (nv : Native) (s : PState) (t : String)
    (f : List String) (m : Bool) (sp ht : Rat) (l : PyVal) (ops : List Op)
    (hj : s.jtalk = none) (hm : s.dictDir ∉ s.fs) :
    (g2p nv t s).2.2.count .download = 1 ∧
    (run_frontend nv t s).2.2.count .download = 1 ∧
    (make_label nv f s).2.2.count .download = 1 ∧
    (extract_fullcontext nv t m s).2.2.count .download = 1 ∧
    (tts nv t sp ht m s).2.2.count .download = 1 ∧
    (synthesize nv l sp ht s).2.2.count .download = 0 ∧
    (estimate_accent nv f s).2.2.count .download = 0 ∧
    (∀ s2 : PState, s2.dictDir ∈ s2.fs →
      (run nv ops s2).2.count .download = 0) :=
  ⟨g2p_missing_download nv t s hj hm,
    run_frontend_missing_download nv t s hj hm,
    make_label_missing_download nv f s hj hm,
    extract_fullcontext_missing_download nv t m s hj hm,
    tts_missing_download nv t sp ht m s hj hm,
    synthesize_download_count nv l sp ht s,
    estimate_accent_download_count nv f s,
    fun s2 hmem => ((run_stepOK nv ops s2).1 hmem).2.2⟩

/-- Witness for C5 (amended): at a fresh dictionary-less state one `g2p`
call makes exactly one download attempt; from a provisioned state a run
makes none. -/
theorem provisioning_exactly_once_witness :
    (g2p sampleNative "t" (initState none [])).2.2.count .download = 1 ∧
    (run sampleNative [.g2p "t"] readyState).2.count .download = 0 := by
  have h := provisioning_exactly_once sampleNative (initState none []) "t" []
    false 1 0 (.list []) [.g2p "t"] rfl (by simp [initState])
  exact ⟨h.1, h.2.2.2.2.2.2.2 readyState (by simp [readyState])⟩

/-- C6: when the marine predictor import fails (optional package absent),
`estimate_accent` fails with the guidance ImportError — not with the
underlying import failure — and the message names the required install
step (`pip install pyopenjtalk[marine]`). -/
theorem estimate_accent_missing_dep_guidance (nv : Native) (f : List String)
    (s : PState) (e : PyErr) (hm : s.marine = false)
    (hp : nv.importPredictor = .error e) :
    (estimate_accent nv f s).1 = .error (.importError marineInstallMsg) ∧
    marineInstallMsg =
      "Please install marine by `pip install pyopenjtalk[marine]`" := by
  unfold estimate_accent
  simp [hm, hp, marineInstallMsg]

/-- Witness for C6: in a process where the marine import raises, the first
`estimate_accent` call returns the guidance ImportError. -/
theorem estimate_accent_missing_dep_guidance_witness :
    (estimate_accent marineAbsentNative [] (initState none [])).1 =
      .error (.importError marineInstallMsg) :=
  (estimate_accent_missing_dep_guidance marineAbsentNative [] (initState none [])
    (.importError "No module named marine") rfl rfl).1

/-- C8 counterexample: the first `make_label` call, with the analyzer slot
empty and the dictionary missing, performs side effects beyond reading the
analyzer handle: it makes a download attempt and fills the analyzer slot,
changing the module state. -/
theorem make_label_first_call_side_effects :
    (make_label sampleNative [] (initState none [])).2.2.count .download = 1 ∧
    (make_label sampleNative [] (initState none [])).2.1.jtalk.isSome = true ∧
    (initState none []).jtalk.isSome = false := by
  refine ⟨?_, rfl, rfl⟩
  exact make_label_missing_download sampleNative [] (initState none []) rfl
    (by simp [initState])

/-- C8 (amended): the output of `make_label` is a pure function of the
analyzer handle and the input feature list: with the handle cached the call
returns exactly the native formatting of its input, leaves the state
unchanged and emits no event, and two calls seeing the same handle return
equal outputs whatever the rest of the state; the first call, however, may
construct the handle (and provision the dictionary) as a side effect. -/
theorem make_label_pure_given_handle (nv : Native) (f : List String)
    (s1 s2 : PState) (h : OpenJTalk) (h1 : s1.jtalk = some h)
    (h2 : s2.jtalk = some h) :
    make_label nv f s1 = (.ok (nv.makeLabelF h.dn_mecab f), s1, []) ∧
    (make_label nv f s1).1 = (make_label nv f s2).1 := by
  have e1 := make_label_cached nv f s1 h h1
  have e2 := make_label_cached nv f s2 h h2
  exact ⟨e1, by rw [e1, e2]⟩

/-- Witness for C8 (amended): with the handle cached, `make_label` returns
the native formatting of its input with no state change and no event. -/
theorem make_label_pure_given_handle_witness :
    make_label sampleNative ["f"] readyState =
      (.ok (sampleNative.makeLabelF defaultDictDir ["f"]), readyState, []) :=
  (make_label_pure_given_handle sampleNative ["f"] readyState readyState
    { dn_mecab := defaultDictDir } rfl rfl).1

/-- C10 counterexample: when importing the predictor succeeds but
constructing it raises, the raw construction error propagates from
`estimate_accent` instead of being re-raised as the guidance ImportError —
so it is not the case that any exception raised while importing or
constructing the predictor is masked. -/
theorem predictor_construction_error_not_masked :
    (estimate_accent predictorCtorFailNative [] (initState none [])).1 =
      .error (.runtimeError "device unavailable") ∧
    PyErr.runtimeError "device unavailable" ≠
      .importError marineInstallMsg := by
  exact ⟨rfl, by simp⟩

/-- C10 (amended): on the first `estimate_accent` call, an exception raised
while importing the predictor — whatever it is — is caught and re-raised as
the install-guidance ImportError; an exception while constructing the
predictor propagates raw; and the feature-schema converter import is
unguarded, so its failure also propagates raw with no guidance message. -/
theorem estimate_accent_error_paths (nv : Native) (f : List String)
    (s : PState) (hm : s.marine = false) :
    (∀ e, nv.importPredictor = .error e →
      (estimate_accent nv f s).1 = .error (.importError marineInstallMsg)) ∧
    (∀ e, nv.importPredictor = .ok () → nv.constructPredictor = .error e →
      (estimate_accent nv f s).1 = .error e) ∧
    (∀ e, nv.importPredictor = .ok () → nv.constructPredictor = .ok () →
      nv.importConverter = .error e →
      (estimate_accent nv f s).1 = .error e) := by
  refine ⟨fun e hp => ?_, fun e hp hc => ?_, fun e hp hc hcv => ?_⟩
  · unfold estimate_accent
    simp [hm, hp]
  · unfold estimate_accent
    simp [hm, hp, hc]
  · unfold estimate_accent
    simp [hm, hp, hc, hcv]

/-- Witness for C10 (amended): the three error paths at concrete oracles —
a failing import gives the guidance error, constructor failure and
converter failure give the raw errors. -/
theorem estimate_accent_error_paths_witness :
    (estimate_accent marineAbsentNative ["x"] (initState none [])).1 =
      .error (.importError marineInstallMsg) ∧
    (estimate_accent predictorCtorFailNative ["x"] (initState none [])).1 =
      .error (.runtimeError "device unavailable") ∧
    (estimate_accent converterFailNative ["x"] (initState none [])).1 =
      .error (.runtimeError "bad converter") := by
  refine ⟨(estimate_accent_error_paths marineAbsentNative ["x"]
      (initState none []) rfl).1 (.importError "No module named marine") rfl,
    (estimate_accent_error_paths predictorCtorFailNative ["x"]
      (initState none []) rfl).2.1 (.runtimeError "device unavailable") rfl rfl,
    (estimate_accent_error_paths converterFailNative ["x"]
      (initState none []) rfl).2.2 (.runtimeError "bad converter") rfl rfl rfl⟩
